import Mathlib

/-!
Verification of the validation-gated children's story generation pipeline
(`src/main.py`, class `StorytellingSystem`).

The backend model calls (OpenAI chat completions) are opaque: every function
that the Python code feeds a backend response string into is embedded here as
a function taking that response string (or an oracle producing such strings)
as an explicit argument.  Python values decoded from JSON are modelled by the
`Json` type below; Python exceptions raised while building dataclass values
are modelled with `Except PyErr`.
-/

/-- Python values that can result from `json.loads`, and the Python list/str
literals the source assigns to the same fields.  JSON numbers are modelled
exactly as rationals (the source never does float arithmetic on them; it only
stores them and compares them). -/
inductive Json where
  | null : Json
  | bool : Bool → Json
  | num : Rat → Json
  | str : String → Json
  | arr : List Json → Json
  | obj : List (String × Json) → Json

/-- Python exception classes that the modelled code can raise or catch. -/
inductive PyErr where
  | valueError : PyErr
  | typeError : PyErr
  | attributeError : PyErr
deriving DecidableEq

/-- JSON whitespace accepted by `json.loads` between tokens. -/
def isJsonWs (c : Char) : Bool :=
  c = ' ' || c = '\t' || c = '\n' || c = '\r'

/-- Drop leading JSON whitespace. -/
def jsonSkipWs (cs : List Char) : List Char := cs.dropWhile isJsonWs

/-- Value of a decimal digit character. -/
def digitVal (c : Char) : Nat := c.toNat - '0'.toNat

/-- Numeric value of a list of decimal digit characters. -/
def digitsToNat (ds : List Char) : Nat := ds.foldl (fun acc c => acc * 10 + digitVal c) 0

/-- Value of a hexadecimal digit character, if it is one. -/
def hexDigitVal (c : Char) : Option Nat :=
  if '0' ≤ c ∧ c ≤ '9' then some (c.toNat - '0'.toNat)
  else if 'a' ≤ c ∧ c ≤ 'f' then some (c.toNat - 'a'.toNat + 10)
  else if 'A' ≤ c ∧ c ≤ 'F' then some (c.toNat - 'A'.toNat + 10)
  else none

/-- Exact rational value of a decimal literal
`[-] intDs [. fracDs] [e [-] expDs]` (all digit lists already isolated).
Built with integer casts and `mkRat` only, so that it evaluates in the
kernel. -/
def decimalToRat (neg : Bool) (intDs fracDs : List Char) (expNeg : Bool) (expDs : List Char) : Rat :=
  let mant : Int := Int.ofNat (digitsToNat (intDs ++ fracDs))
  let mant : Int := if neg then -mant else mant
  let e : Int :=
    (if expNeg then -(Int.ofNat (digitsToNat expDs)) else Int.ofNat (digitsToNat expDs))
      - Int.ofNat fracDs.length
  if 0 ≤ e then ((mant * (10 : Int) ^ e.toNat : Int) : Rat)
  else mkRat mant ((10 : Nat) ^ (-e).toNat)

/-- Parse the fractional part of a JSON number (empty if there is no dot;
a dot must be followed by at least one digit). -/
def jsonParseFrac : List Char → Option (List Char × List Char)
  | '.' :: r =>
    let p := r.span Char.isDigit
    if p.1.isEmpty then none else some (p.1, p.2)
  | cs => some ([], cs)

/-- Parse the exponent part of a JSON number (sign flag, digits, rest). -/
def jsonParseExp : List Char → Option (Bool × List Char × List Char)
  | [] => some (false, [], [])
  | c :: r =>
    if c = 'e' ∨ c = 'E' then
      let (en, r2) : Bool × List Char :=
        match r with
        | '+' :: rr => (false, rr)
        | '-' :: rr => (true, rr)
        | _ => (false, r)
      let p := r2.span Char.isDigit
      if p.1.isEmpty then none else some (en, p.1, p.2)
    else some (false, [], c :: r)

/-- Parse a JSON number from the head of the input (JSON grammar: optional
minus, no leading zeros, optional fraction and exponent). -/
def jsonParseNumber (cs : List Char) : Option (Rat × List Char) := do
  let (neg, cs1) : Bool × List Char :=
    match cs with
    | '-' :: r => (true, r)
    | _ => (false, cs)
  let p := cs1.span Char.isDigit
  let intDs := p.1
  if intDs.isEmpty then none
  else if 1 < intDs.length ∧ intDs.headD '0' = '0' then none
  else do
    let (fracDs, cs3) ← jsonParseFrac p.2
    let (expNeg, expDs, cs4) ← jsonParseExp cs3
    some (decimalToRat neg intDs fracDs expNeg expDs, cs4)

/-- Parse the body of a JSON string after the opening quote; returns the
decoded characters and the input after the closing quote. -/
def parseStringBody : Nat → List Char → Option (List Char × List Char)
  | 0, _ => none
  | fuel + 1, cs =>
    match cs with
    | [] => none
    | c :: rest =>
      if c = '"' then some ([], rest)
      else if c = '\\' then
        match rest with
        | [] => none
        | e :: rest2 =>
          let cont := fun (ch : Char) (rs : List Char) =>
            (parseStringBody fuel rs).map (fun p => (ch :: p.1, p.2))
          if e = '"' then cont '"' rest2
          else if e = '\\' then cont '\\' rest2
          else if e = '/' then cont '/' rest2
          else if e = 'b' then cont '\x08' rest2
          else if e = 'f' then cont '\x0c' rest2
          else if e = 'n' then cont '\n' rest2
          else if e = 'r' then cont '\r' rest2
          else if e = 't' then cont '\t' rest2
          else if e = 'u' then
            match rest2 with
            | h1 :: h2 :: h3 :: h4 :: rest3 =>
              match hexDigitVal h1, hexDigitVal h2, hexDigitVal h3, hexDigitVal h4 with
              | some a, some b, some c2, some d =>
                cont (Char.ofNat (((a * 16 + b) * 16 + c2) * 16 + d)) rest3
              | _, _, _, _ => none
            | _ => none
          else none
      else if c.toNat < 32 then none
      else (parseStringBody fuel rest).map (fun p => (c :: p.1, p.2))

/-- Match a literal keyword tail (`rue`, `alse`, `ull`). -/
def dropLit : List Char → List Char → Option (List Char)
  | [], cs => some cs
  | l :: ls, c :: cs => if c = l then dropLit ls cs else none
  | _ :: _, [] => none

mutual

/-- Recursive-descent JSON value parser (model of the grammar accepted by
Python's `json.loads`).  The input is expected to have no leading
whitespace; callers skip it.  Fuel bounds the recursion depth. -/
def parseValue : Nat → List Char → Option (Json × List Char)
  | 0, _ => none
  | fuel + 1, cs =>
    match cs with
    | [] => none
    | c :: rest =>
      if c = '\x7b' then
        (parseObjBody fuel (jsonSkipWs rest)).map (fun p => (Json.obj p.1, p.2))
      else if c = '[' then
        (parseArrBody fuel (jsonSkipWs rest)).map (fun p => (Json.arr p.1, p.2))
      else if c = '"' then
        (parseStringBody (rest.length + 1) rest).map (fun p => (Json.str (String.mk p.1), p.2))
      else if c = 't' then (dropLit ['r', 'u', 'e'] rest).map (fun r => (Json.bool true, r))
      else if c = 'f' then (dropLit ['a', 'l', 's', 'e'] rest).map (fun r => (Json.bool false, r))
      else if c = 'n' then (dropLit ['u', 'l', 'l'] rest).map (fun r => (Json.null, r))
      else (jsonParseNumber (c :: rest)).map (fun p => (Json.num p.1, p.2))

/-- Object body after the opening brace (whitespace already skipped). -/
def parseObjBody : Nat → List Char → Option (List (String × Json) × List Char)
  | 0, _ => none
  | fuel + 1, cs =>
    match cs with
    | [] => none
    | c :: rest => if c = '\x7d' then some ([], rest) else parseMembers fuel (c :: rest)

/-- One or more `"key": value` members separated by commas, ending at the
closing brace. -/
def parseMembers : Nat → List Char → Option (List (String × Json) × List Char)
  | 0, _ => none
  | fuel + 1, cs =>
    match cs with
    | '"' :: rest => do
      let (key, cs2) ← parseStringBody (rest.length + 1) rest
      match jsonSkipWs cs2 with
      | ':' :: cs4 => do
        let (v, cs5) ← parseValue fuel (jsonSkipWs cs4)
        match jsonSkipWs cs5 with
        | ',' :: cs7 =>
          (parseMembers fuel (jsonSkipWs cs7)).map (fun p => ((String.mk key, v) :: p.1, p.2))
        | '\x7d' :: cs7 => some ([(String.mk key, v)], cs7)
        | _ => none
      | _ => none
    | _ => none

/-- Array body after the opening bracket (whitespace already skipped). -/
def parseArrBody : Nat → List Char → Option (List Json × List Char)
  | 0, _ => none
  | fuel + 1, cs =>
    match cs with
    | ']' :: rest => some ([], rest)
    | _ => parseElements fuel cs

/-- One or more array elements separated by commas, ending at the closing
bracket. -/
def parseElements : Nat → List Char → Option (List Json × List Char)
  | 0, _ => none
  | fuel + 1, cs => do
    let (v, cs2) ← parseValue fuel cs
    match jsonSkipWs cs2 with
    | ',' :: cs4 => (parseElements fuel (jsonSkipWs cs4)).map (fun p => (v :: p.1, p.2))
    | ']' :: cs4 => some ([v], cs4)
    | _ => none

end

/-- Model of Python `json.loads`: parse one JSON value, allowing surrounding
whitespace, and require the whole input to be consumed.  Returns `none` where
Python raises `json.JSONDecodeError`. -/
def json_loads (s : String) : Option Json :=
  match parseValue (s.data.length * 3 + 3) (jsonSkipWs s.data) with
  | some (v, rest) => if (jsonSkipWs rest).isEmpty then some v else none
  | none => none

/-- Python `str.strip()` whitespace set (ASCII part). -/
def isPySpace (c : Char) : Bool :=
  c = ' ' || c = '\t' || c = '\n' || c = '\r' || c = '\x0b' || c = '\x0c'

/-- Model of Python `str.strip()`. -/
def pyStrip (s : String) : String :=
  String.mk (((s.data.dropWhile isPySpace).reverse.dropWhile isPySpace).reverse)

/-- Index of the first occurrence of `c` (model of Python `str.find`, with
`none` standing for `-1`). -/
def findChar (c : Char) : List Char → Option Nat
  | [] => none
  | x :: xs => if x = c then some 0 else (findChar c xs).map (· + 1)

/-- Index of the last occurrence of `c` (model of Python `str.rfind`, with
`none` standing for `-1`). -/
def rfindChar (c : Char) (cs : List Char) : Option Nat :=
  (findChar c cs.reverse).map (fun k => cs.length - 1 - k)

/-- The `json_start = text.find(brace) ... json_end = text.rfind(close) + 1`
span extraction used by `_parse_json_evaluation` (lines 195-199) and
`_extract_story_metadata` (lines 491-494): the slice `s[json_start:json_end]`
when `json_start != -1 and json_end > json_start`, and `none` otherwise. -/
def extract_json_span (s : String) : Option String :=
  match findChar '\x7b' s.data, rfindChar '\x7d' s.data with
  | some i, some j =>
    if j + 1 > i then some (String.mk ((s.data.drop i).take (j + 1 - i))) else none
  | _, _ => none

/-- Model of Python `int(q)` on a number: truncation toward zero. -/
def ratTrunc (q : Rat) : Int := Int.tdiv q.num (Int.ofNat q.den)

/-- Model of Python `int(s)` on a string: optional surrounding whitespace,
optional sign, at least one digit; decimal points are not accepted.  `none`
models `ValueError`. -/
def pyIntOfString (s : String) : Option Int :=
  let cs := ((s.data.dropWhile isPySpace).reverse.dropWhile isPySpace).reverse
  let (neg, cs1) : Bool × List Char :=
    match cs with
    | '-' :: r => (true, r)
    | '+' :: r => (false, r)
    | _ => (false, cs)
  if cs1.isEmpty ∨ ¬cs1.all Char.isDigit then none
  else some (if neg then -(Int.ofNat (digitsToNat cs1)) else Int.ofNat (digitsToNat cs1))

/-- Model of Python `float(s)` on a string: optional surrounding whitespace,
optional sign, digits with optional fraction and exponent (Python also
accepts `.5` and `5.`; the `inf`/`nan` literals are not modelled).  `none`
models `ValueError`. -/
def pyFloatOfString (s : String) : Option Rat :=
  let cs := ((s.data.dropWhile isPySpace).reverse.dropWhile isPySpace).reverse
  let (neg, cs1) : Bool × List Char :=
    match cs with
    | '-' :: r => (true, r)
    | '+' :: r => (false, r)
    | _ => (false, cs)
  let p := cs1.span Char.isDigit
  let (fracDs, cs3) : List Char × List Char :=
    match p.2 with
    | '.' :: r => r.span Char.isDigit
    | r => ([], r)
  if p.1.isEmpty ∧ fracDs.isEmpty then none
  else
    match cs3 with
    | [] => some (decimalToRat neg p.1 fracDs false [])
    | c :: r =>
      if c = 'e' ∨ c = 'E' then
        let (en, r2) : Bool × List Char :=
          match r with
          | '+' :: rr => (false, rr)
          | '-' :: rr => (true, rr)
          | _ => (false, r)
        if r2.isEmpty ∨ ¬r2.all Char.isDigit then none
        else some (decimalToRat neg p.1 fracDs en r2)
      else none

/-- Model of Python `int(x)` applied to a decoded JSON value: `ValueError`
for non-numeric strings, `TypeError` for `None`, lists and objects (the
exception classes CPython raises). -/
def pyInt : Json → Except PyErr Int
  | Json.bool b => Except.ok (if b then 1 else 0)
  | Json.num q => Except.ok (ratTrunc q)
  | Json.str s =>
    match pyIntOfString s with
    | some n => Except.ok n
    | none => Except.error PyErr.valueError
  | _ => Except.error PyErr.typeError

/-- Model of Python `float(x)` applied to a decoded JSON value. -/
def pyFloat : Json → Except PyErr Rat
  | Json.bool b => Except.ok (if b then 1 else 0)
  | Json.num q => Except.ok q
  | Json.str s =>
    match pyFloatOfString s with
    | some q => Except.ok q
    | none => Except.error PyErr.valueError
  | _ => Except.error PyErr.typeError

/-- Model of Python `x == lit` for a string literal `lit`: a non-string
value never compares equal to a string. -/
def pyEqStr (v : Json) (lit : String) : Bool :=
  match v with
  | Json.str t => t = lit
  | _ => false

/-- Model of `dict.get(key, default)` on a dict decoded by `json.loads`
(with duplicate keys the last occurrence wins, as in CPython). -/
def dictGet (fields : List (String × Json)) (key : String) (default : Json) : Json :=
  match fields.reverse.find? (fun p => p.1 == key) with
  | some p => p.2
  | none => default

/-- The `JudgeEvaluation` dataclass (lines 31-37).  `specific_concerns` and
`revision_suggestions` receive raw decoded values with no coercion in the
source, so they are modelled as `Json`. -/
structure JudgeEvaluation where
  is_safe : Bool
  quality_score : Int
  specific_concerns : Json
  revision_suggestions : Json
  confidence : Rat

/-- The conservative fallback evaluation built at lines 218-224. -/
def fallbackEvaluation : JudgeEvaluation :=
  { is_safe := false
    quality_score := 1
    specific_concerns := Json.arr [Json.str "Unable to parse evaluation response"]
    revision_suggestions := Json.arr [Json.str "Please generate more appropriate content for children"]
    confidence := 1 }

/-- The `JudgeEvaluation(...)` construction at lines 203-209.  Keyword
arguments evaluate left to right, so the `int(...)` coercion of
`quality_score` runs before the `float(...)` coercion of `confidence`, and
either can raise. -/
def build_evaluation (data : List (String × Json)) : Except PyErr JudgeEvaluation := do
  let qs ← pyInt (dictGet data "quality_score" (Json.num 1))
  let conf ← pyFloat (dictGet data "confidence" (Json.num 1))
  Except.ok
    { is_safe := pyEqStr (dictGet data "verdict" (Json.str "UNSAFE")) "SAFE"
      quality_score := qs
      specific_concerns := dictGet data "concerns" (Json.arr [])
      revision_suggestions := dictGet data "suggestions" (Json.arr [])
      confidence := conf }

/-- `_parse_json_evaluation` (lines 191-224).  The `except` clause catches
exactly `json.JSONDecodeError`, `ValueError` and `KeyError`, substituting
`fallbackEvaluation`; any other exception propagates (notably the
`TypeError` raised by `int(...)`/`float(...)` on `None`, lists or objects,
and the `AttributeError` `.get` would raise on a non-dict). -/
def _parse_json_evaluation (evaluation_text : String) : Except PyErr JudgeEvaluation :=
  match extract_json_span evaluation_text with
  | none => Except.ok fallbackEvaluation
  | some json_str =>
    match json_loads json_str with
    | none => Except.ok fallbackEvaluation
    | some (Json.obj data) =>
      match build_evaluation data with
      | Except.ok ev => Except.ok ev
      | Except.error PyErr.valueError => Except.ok fallbackEvaluation
      | Except.error e => Except.error e
    | some _ => Except.error PyErr.attributeError

/-- The `StoryState` dataclass (lines 21-29).  `characters`, `setting` and
`theme` are assigned raw decoded JSON values by `_extract_story_metadata`
with no coercion, so they are modelled as `Json`; their dataclass defaults
are the empty list and empty strings. -/
structure StoryState where
  full_story : String := ""
  characters : Json := Json.arr []
  setting : Json := Json.str ""
  theme : Json := Json.str ""
  current_segment : String := ""
  segment_count : Nat := 0
  user_choices : List String := []

/-- `_extract_story_metadata` (lines 468-512), as a function of the backend
response to the extraction prompt.  A missing span and a `JSONDecodeError`
both install the fallback metadata; a parsed dict installs the `data.get`
values with their declared defaults.  The `some _` (non-dict) branch models
the `AttributeError` `.get` would raise; it is unreachable because an
extracted span always starts with an opening brace
(`extract_json_span_loads_obj` below). -/
def _extract_story_metadata (metadata_response : String) (st : StoryState) :
    Except PyErr StoryState :=
  match extract_json_span metadata_response with
  | some json_str =>
    match json_loads json_str with
    | some (Json.obj data) =>
      Except.ok
        { st with
          characters := dictGet data "characters" (Json.arr [])
          setting := dictGet data "setting" (Json.str "Unknown setting")
          theme := dictGet data "theme" (Json.str "Adventure") }
    | some _ => Except.error PyErr.attributeError
    | none =>
      Except.ok
        { st with
          characters := Json.arr [Json.str "Main character"]
          setting := Json.str "A friendly place"
          theme := Json.str "Adventure" }
  | none =>
    Except.ok
      { st with
        characters := Json.arr [Json.str "Main character"]
        setting := Json.str "A friendly place"
        theme := Json.str "Adventure" }

/-- `update_story_state` (lines 457-466), as a function of the backend
response the metadata extraction would receive.  The returned `Bool` records
whether `_extract_story_metadata` was invoked. -/
def update_story_state (metadata_response : String) (st : StoryState)
    (new_segment : String) : Except PyErr (StoryState × Bool) :=
  let st := { st with current_segment := new_segment }
  let st :=
    { st with
      full_story :=
        if st.full_story ≠ "" then st.full_story ++ "\n\n" ++ new_segment else new_segment }
  let st := { st with segment_count := st.segment_count + 1 }
  if st.segment_count = 1 then
    (_extract_story_metadata metadata_response st).map (fun st2 => (st2, true))
  else
    Except.ok (st, false)

/-- `request_story_changes` (lines 311-338) as a function of the backend
response to the change prompt: the story state and the user's request only
shape the prompt, and the returned replacement transcript is the stripped
backend response, unconditionally — no evaluation is consulted. -/
def request_story_changes (_st : StoryState) (_change_request : String)
    (backend_response : String) : String :=
  pyStrip backend_response

/-- `change_story_tone` (lines 340-366): same shape as
`request_story_changes`. -/
def change_story_tone (_st : StoryState) (_tone_request : String)
    (backend_response : String) : String :=
  pyStrip backend_response

/-- `add_new_character` (lines 368-394): same shape as
`request_story_changes`. -/
def add_new_character (_st : StoryState) (_character_request : String)
    (backend_response : String) : String :=
  pyStrip backend_response

/-- `change_story_setting` (lines 396-423): same shape as
`request_story_changes`. -/
def change_story_setting (_st : StoryState) (_setting_request : String)
    (backend_response : String) : String :=
  pyStrip backend_response

/-- The state mutation the interactive loop performs for menu choices 4-7
(lines 669-670, 683-684, 697-698, 711-712): the transcript is overwritten
wholesale and nothing else in the state changes; in particular
`update_story_state` is not called (line 731 skips it for these choices). -/
def apply_story_rewrite (st : StoryState) (revised_story : String) : StoryState :=
  { st with full_story := revised_story }

/-- `self.max_retry_attempts` set in `__init__` (line 42). -/
def max_retry_attempts : Nat := 3

/-- `_get_fallback_story` (lines 304-309). -/
def _get_fallback_story (is_ending : Bool) : String :=
  if is_ending then
    "And so our adventure comes to a happy end. The friends had learned something wonderful today - that by working together and being kind to each other, they could solve any problem. They smiled as they headed home, excited to share their story with their families. The End."
  else
    "Once upon a time, there was a kind little bunny named Benny who loved to help others. One sunny morning, Benny decided to visit his friend Lily the lamb to see if she needed any help in her garden."

/-- Oracle for the backend-driven steps of one `process_story_segment`
invocation.  Each component is indexed by how many times that step has run
so far in the invocation, which captures that each underlying model call can
answer differently: `gen n` is the result of the `n`-th
`generate_story_segment` call, `revise n seg ev` the result of the `n`-th
`revise_story_segment` call on candidate `seg` with evaluation `ev`, and
`judge n seg` the evaluation that the `n`-th `evaluate_story_segment` call
returns for candidate `seg`. -/
structure Backend where
  gen : Nat → String
  revise : Nat → String → JudgeEvaluation → String
  judge : Nat → String → JudgeEvaluation

/-- Result of one `process_story_segment` invocation, with an effect log:
the returned pair `(text, accepted)` plus how many times each backend step
ran and the list of `(candidate, evaluation)` pairs the judge saw, in
order. -/
structure RunResult where
  text : String
  accepted : Bool
  gen_calls : Nat
  revise_calls : Nat
  judge_calls : Nat
  judged : List (String × JudgeEvaluation)

/-- The `for attempt in range(self.max_retry_attempts)` loop of
`process_story_segment` (lines 279-302), one constructor case per remaining
iteration count.  Exactly as in the source, every iteration overwrites
`story_segment` with a fresh `generate_story_segment` result (line 283)
before judging it, so the `revise_story_segment` result computed at
line 297 is passed into the next iteration only to be overwritten. -/
def processFrom (B : Backend) (is_ending : Bool) :
    Nat → Nat → String → Nat → Nat → Nat → List (String × JudgeEvaluation) → RunResult
  | 0, _, _, g, r, j, log =>
    { text := _get_fallback_story is_ending, accepted := false,
      gen_calls := g, revise_calls := r, judge_calls := j, judged := log }
  | remaining + 1, attempt, _story_segment, g, r, j, log =>
    let story_segment := B.gen g
    let evaluation := B.judge j story_segment
    let log := log ++ [(story_segment, evaluation)]
    if evaluation.is_safe ∧ evaluation.quality_score ≥ 3 then
      { text := story_segment, accepted := true,
        gen_calls := g + 1, revise_calls := r, judge_calls := j + 1, judged := log }
    else if attempt < max_retry_attempts - 1 then
      let story_segment := B.revise r story_segment evaluation
      processFrom B is_ending remaining (attempt + 1) story_segment (g + 1) (r + 1) (j + 1) log
    else
      { text := _get_fallback_story is_ending, accepted := false,
        gen_calls := g + 1, revise_calls := r, judge_calls := j + 1, judged := log }

/-- `process_story_segment` (lines 273-302), with the backend calls supplied
by the oracle `B` and the mode reduced to its only control-relevant part,
the `is_ending` flag (fallback selection). -/
def process_story_segment (B : Backend) (is_ending : Bool) : RunResult :=
  processFrom B is_ending max_retry_attempts 0 "" 0 0 0 []

/-- The acceptance gate of line 290:
`evaluation.is_safe and evaluation.quality_score >= 3`. -/
def acceptGate (evaluation : JudgeEvaluation) : Prop :=
  evaluation.is_safe = true ∧ evaluation.quality_score ≥ 3

instance (evaluation : JudgeEvaluation) : Decidable (acceptGate evaluation) :=
  inferInstanceAs (Decidable (_ ∧ _))

/-- The candidate judged on attempt `k` of a `process_story_segment` run: a
fresh generation (see `processFrom`). -/
def candidateAt (B : Backend) (k : Nat) : String := B.gen k

/-- The evaluation returned by the judge on attempt `k`. -/
def evalAt (B : Backend) (k : Nat) : JudgeEvaluation := B.judge k (candidateAt B k)

/-- Backend where the very first candidate passes the gate. -/
def acceptingBackend : Backend where
  gen := fun n => "Benny the bunny sets off on adventure number " ++ toString n
  revise := fun _ seg _ => seg
  judge := fun _ _ => ⟨true, 4, Json.arr [], Json.arr [], 2⟩

/-- Backend with distinguishable generator and reviser outputs, whose judge
rejects its first two calls and approves its third. -/
def revisionDiscardBackend : Backend where
  gen := fun n => "GEN" ++ toString n
  revise := fun _ seg _ => "REVISED-" ++ seg
  judge := fun n _ =>
    if n < 2 then ⟨false, 2, Json.arr [Json.str "too scary"], Json.arr [Json.str "soften it"], 1⟩
    else ⟨true, 3, Json.arr [], Json.arr [], 1⟩

/-- Backend whose judge rejects every candidate. -/
def alwaysRejectBackend : Backend where
  gen := fun n => "STORY" ++ toString n
  revise := fun _ seg _ => "FIX-" ++ seg
  judge := fun _ _ =>
    ⟨false, 2, Json.arr [Json.str "not suitable"], Json.arr [Json.str "rewrite it"], 1⟩

/-- Backend whose judge always answers safe-but-low-quality, so every
attempt fails the conjunction gate. -/
def lowQualityBackend : Backend where
  gen := fun n => "DRAFT" ++ toString n
  revise := fun _ seg _ => seg
  judge := fun _ _ => ⟨true, 2, Json.arr [], Json.arr [Json.str "add detail"], 1⟩

/-- The state built by the first three statements of `update_story_state`
(lines 460-462). -/
def appended_state (st : StoryState) (seg : String) : StoryState :=
  { st with
    current_segment := seg
    full_story := if st.full_story ≠ "" then st.full_story ++ "\n\n" ++ seg else seg
    segment_count := st.segment_count + 1 }


/-! ### Characterization of one `process_story_segment` run -/

lemma processFrom_succ (B : Backend) (m : Bool) (n a : Nat) (s : String) (g r j : Nat)
    (log : List (String × JudgeEvaluation)) :
    processFrom B m (n + 1) a s g r j log =
      (let story_segment := B.gen g
       let evaluation := B.judge j story_segment
       let log := log ++ [(story_segment, evaluation)]
       if evaluation.is_safe ∧ evaluation.quality_score ≥ 3 then
         { text := story_segment, accepted := true,
           gen_calls := g + 1, revise_calls := r, judge_calls := j + 1, judged := log }
       else if a < max_retry_attempts - 1 then
         processFrom B m n (a + 1) (B.revise r story_segment evaluation) (g + 1) (r + 1) (j + 1) log
       else
         { text := _get_fallback_story m, accepted := false,
           gen_calls := g + 1, revise_calls := r, judge_calls := j + 1, judged := log }) := rfl

lemma run_accept0 (B : Backend) (m : Bool) (h0 : acceptGate (evalAt B 0)) :
    process_story_segment B m =
      { text := B.gen 0, accepted := true, gen_calls := 1, revise_calls := 0, judge_calls := 1,
        judged := [(B.gen 0, evalAt B 0)] } := by
  unfold process_story_segment
  rw [show max_retry_attempts = 2 + 1 from rfl, processFrom_succ]
  dsimp only
  split
  · rfl
  · exact absurd h0 (by assumption)

lemma run_accept1 (B : Backend) (m : Bool) (h0 : ¬ acceptGate (evalAt B 0))
    (h1 : acceptGate (evalAt B 1)) :
    process_story_segment B m =
      { text := B.gen 1, accepted := true, gen_calls := 2, revise_calls := 1, judge_calls := 2,
        judged := [(B.gen 0, evalAt B 0), (B.gen 1, evalAt B 1)] } := by
  unfold process_story_segment
  rw [show max_retry_attempts = 2 + 1 from rfl, processFrom_succ]
  dsimp only
  split
  · exact absurd (by assumption) h0
  · rw [if_pos (show 0 < max_retry_attempts - 1 by norm_num [max_retry_attempts]),
      processFrom_succ]
    dsimp only
    split
    · rfl
    · exact absurd h1 (by assumption)

lemma run_accept2 (B : Backend) (m : Bool) (h0 : ¬ acceptGate (evalAt B 0))
    (h1 : ¬ acceptGate (evalAt B 1)) (h2 : acceptGate (evalAt B 2)) :
    process_story_segment B m =
      { text := B.gen 2, accepted := true, gen_calls := 3, revise_calls := 2, judge_calls := 3,
        judged := [(B.gen 0, evalAt B 0), (B.gen 1, evalAt B 1), (B.gen 2, evalAt B 2)] } := by
  unfold process_story_segment
  rw [show max_retry_attempts = 2 + 1 from rfl, processFrom_succ]
  dsimp only
  split
  · exact absurd (by assumption) h0
  · rw [if_pos (show 0 < max_retry_attempts - 1 by norm_num [max_retry_attempts]),
      processFrom_succ]
    dsimp only
    split
    · exact absurd (by assumption) h1
    · rw [if_pos (show 1 < max_retry_attempts - 1 by norm_num [max_retry_attempts]),
        processFrom_succ]
      dsimp only
      split
      · rfl
      · exact absurd h2 (by assumption)

lemma run_reject (B : Backend) (m : Bool) (h0 : ¬ acceptGate (evalAt B 0))
    (h1 : ¬ acceptGate (evalAt B 1)) (h2 : ¬ acceptGate (evalAt B 2)) :
    process_story_segment B m =
      { text := _get_fallback_story m, accepted := false,
        gen_calls := 3, revise_calls := 2, judge_calls := 3,
        judged := [(B.gen 0, evalAt B 0), (B.gen 1, evalAt B 1), (B.gen 2, evalAt B 2)] } := by
  unfold process_story_segment
  rw [show max_retry_attempts = 2 + 1 from rfl, processFrom_succ]
  dsimp only
  split
  · exact absurd (by assumption) h0
  · rw [if_pos (show 0 < max_retry_attempts - 1 by norm_num [max_retry_attempts]),
      processFrom_succ]
    dsimp only
    split
    · exact absurd (by assumption) h1
    · rw [if_pos (show 1 < max_retry_attempts - 1 by norm_num [max_retry_attempts]),
        processFrom_succ]
      dsimp only
      split
      · exact absurd (by assumption) h2
      · rw [if_neg (show ¬ (2 < max_retry_attempts - 1) by norm_num [max_retry_attempts])]
        rfl

lemma exists_lt_three_iff (P : Nat → Prop) : (∃ k, k < 3 ∧ P k) ↔ P 0 ∨ P 1 ∨ P 2 := by
  constructor
  · rintro ⟨k, hk, hP⟩
    interval_cases k
    · exact Or.inl hP
    · exact Or.inr (Or.inl hP)
    · exact Or.inr (Or.inr hP)
  · rintro (h | h | h)
    · exact ⟨0, by norm_num, h⟩
    · exact ⟨1, by norm_num, h⟩
    · exact ⟨2, by norm_num, h⟩

/-! ### Span extraction yields brace-headed strings, which decode to dicts -/

lemma findChar_drop (c : Char) (l : List Char) :
    ∀ i : Nat, findChar c l = some i → ∃ t, l.drop i = c :: t := by
  induction l with
  | nil => intro i h; simp [findChar] at h
  | cons x xs ih =>
    intro i h
    rw [findChar] at h
    by_cases hx : x = c
    · rw [if_pos hx] at h
      injection h with h'
      subst h'
      exact ⟨xs, by simp [hx]⟩
    · rw [if_neg hx] at h
      rcases Option.map_eq_some'.mp h with ⟨j, hj, rfl⟩
      simpa using ih j hj

lemma extract_json_span_head (s js : String) (h : extract_json_span s = some js) :
    ∃ t, js.data = '\x7b' :: t := by
  unfold extract_json_span at h
  rcases hf : findChar '\x7b' s.data with _ | i <;> rw [hf] at h
  · simp at h
  · rcases hr : rfindChar '\x7d' s.data with _ | j <;> rw [hr] at h
    · simp at h
    · dsimp only at h
      split at h
      · injection h with h'
        subst h'
        rcases findChar_drop _ _ _ hf with ⟨t, ht⟩
        obtain ⟨k, hk⟩ : ∃ k, j + 1 - i = k + 1 := ⟨j - i, by omega⟩
        refine ⟨t.take k, ?_⟩
        show (s.data.drop i).take (j + 1 - i) = _
        rw [ht, hk]
        simp
      · simp at h

lemma parseValue_brace (fuel : Nat) (t : List Char) :
    parseValue fuel ('\x7b' :: t) = none ∨
      ∃ d r, parseValue fuel ('\x7b' :: t) = some (Json.obj d, r) := by
  cases fuel with
  | zero => exact Or.inl rfl
  | succ f =>
    rcases hb : parseObjBody f (jsonSkipWs t) with _ | ⟨d, r⟩
    · refine Or.inl ?_
      show (parseObjBody f (jsonSkipWs t)).map (fun p => (Json.obj p.1, p.2)) = none
      rw [hb]
      rfl
    · refine Or.inr ⟨d, r, ?_⟩
      show (parseObjBody f (jsonSkipWs t)).map (fun p => (Json.obj p.1, p.2)) = some (Json.obj d, r)
      rw [hb]
      rfl

lemma json_loads_of_brace (js : String) (t : List Char) (h : js.data = '\x7b' :: t) :
    json_loads js = none ∨ ∃ d, json_loads js = some (Json.obj d) := by
  unfold json_loads
  rw [h]
  have hskip : jsonSkipWs ('\x7b' :: t) = '\x7b' :: t := rfl
  rw [hskip]
  rcases parseValue_brace (('\x7b' :: t).length * 3 + 3) t with hn | ⟨d, r, hs⟩
  · rw [hn]
    exact Or.inl rfl
  · rw [hs]
    dsimp only
    split
    · exact Or.inr ⟨d, rfl⟩
    · exact Or.inl rfl

lemma extract_json_span_loads_obj (s js : String) (h : extract_json_span s = some js) :
    json_loads js = none ∨ ∃ d, json_loads js = some (Json.obj d) := by
  rcases extract_json_span_head s js h with ⟨t, ht⟩
  exact json_loads_of_brace js t ht

lemma dictGet_of_not_mem (fields : List (String × Json)) (key : String) (default : Json)
    (h : ∀ p ∈ fields, p.1 ≠ key) : dictGet fields key default = default := by
  unfold dictGet
  rcases hf : fields.reverse.find? (fun p => p.1 == key) with _ | p
  · rw [hf]
  · have hpk := List.find?_some hf
    have hp : p ∈ fields.reverse := List.mem_of_find?_eq_some hf
    rw [List.mem_reverse] at hp
    exact absurd (by simpa using hpk) (h p hp)

lemma pyEqStr_iff (v : Json) (lit : String) : pyEqStr v lit = true ↔ v = Json.str lit := by
  cases v <;> simp [pyEqStr]

lemma extract_story_metadata_total (resp : String) (st : StoryState) :
    ∃ st2, _extract_story_metadata resp st = Except.ok st2 := by
  unfold _extract_story_metadata
  rcases hs : extract_json_span resp with _ | js
  · exact ⟨_, rfl⟩
  · dsimp only
    rcases extract_json_span_loads_obj resp js hs with hn | ⟨d, hd⟩
    · rw [hn]
      exact ⟨_, rfl⟩
    · rw [hd]
      exact ⟨_, rfl⟩

/-! ### Claims about the validation-gated pipeline -/

/-- C1: a `process_story_segment` invocation returns `accepted = true` if
and only if some attempt's evaluation satisfies
`is_safe and quality_score >= 3`; and whenever attempt `k` is the first
whose evaluation satisfies the gate, the candidate judged on attempt `k` is
returned immediately with `accepted = true` — the judge has then run exactly
`k + 1` times, so no further attempts are spent.  No other combination of
evaluation fields yields acceptance. -/
theorem pipeline_acceptance_gate_iff (B : Backend) (is_ending : Bool) :
    ((process_story_segment B is_ending).accepted = true ↔
      ∃ k, k < max_retry_attempts ∧ acceptGate (evalAt B k)) ∧
    (∀ k, k < max_retry_attempts → acceptGate (evalAt B k) →
      (∀ i, i < k → ¬ acceptGate (evalAt B i)) →
      (process_story_segment B is_ending).text = candidateAt B k ∧
        (process_story_segment B is_ending).accepted = true ∧
        (process_story_segment B is_ending).judge_calls = k + 1 ∧
        (process_story_segment B is_ending).judged.length = k + 1) := by
  constructor
  · rw [show max_retry_attempts = 3 from rfl, exists_lt_three_iff]
    by_cases h0 : acceptGate (evalAt B 0)
    · rw [run_accept0 B is_ending h0]
      exact iff_of_true rfl (Or.inl h0)
    · by_cases h1 : acceptGate (evalAt B 1)
      · rw [run_accept1 B is_ending h0 h1]
        exact iff_of_true rfl (Or.inr (Or.inl h1))
      · by_cases h2 : acceptGate (evalAt B 2)
        · rw [run_accept2 B is_ending h0 h1 h2]
          exact iff_of_true rfl (Or.inr (Or.inr h2))
        · rw [run_reject B is_ending h0 h1 h2]
          refine iff_of_false (by simp) ?_
          rintro (h | h | h)
          · exact h0 h
          · exact h1 h
          · exact h2 h
  · intro k hk hg hmin
    rw [show max_retry_attempts = 3 from rfl] at hk
    interval_cases k
    · rw [run_accept0 B is_ending hg]
      exact ⟨rfl, rfl, rfl, rfl⟩
    · rw [run_accept1 B is_ending (hmin 0 (by norm_num)) hg]
      exact ⟨rfl, rfl, rfl, rfl⟩
    · rw [run_accept2 B is_ending (hmin 0 (by norm_num)) (hmin 1 (by norm_num)) hg]
      exact ⟨rfl, rfl, rfl, rfl⟩

/-- Witness for `pipeline_acceptance_gate_iff` at a concrete backend whose
first evaluation passes the gate. -/
theorem pipeline_acceptance_gate_iff_witness :
    (process_story_segment acceptingBackend false).text = candidateAt acceptingBackend 0 ∧
      (process_story_segment acceptingBackend false).accepted = true ∧
      (process_story_segment acceptingBackend false).judge_calls = 0 + 1 ∧
      (process_story_segment acceptingBackend false).judged.length = 0 + 1 :=
  (pipeline_acceptance_gate_iff acceptingBackend false).2 0 (by decide) (by decide)
    (fun i hi => absurd hi (Nat.not_lt_zero i))

/-- C2 (code bug): in the reject-reject-accept scenario the reviser is
indeed called twice and the judge three times, but the candidates the judge
sees are the three fresh generator outputs `GEN0`, `GEN1`, `GEN2` — not the
reviser's outputs — and the returned text is the third fresh generation,
not the revision `REVISED-GEN1` computed (and then discarded) on the second
rejection.  Line 283 overwrites `story_segment` with a new
`generate_story_segment` call at the top of every iteration, so the
line-297 revision is dead. -/
theorem revision_discarded_on_retry :
    (process_story_segment revisionDiscardBackend false).accepted = true ∧
      (process_story_segment revisionDiscardBackend false).revise_calls = 2 ∧
      (process_story_segment revisionDiscardBackend false).judge_calls = 3 ∧
      (process_story_segment revisionDiscardBackend false).judged.map Prod.fst
        = ["GEN0", "GEN1", "GEN2"] ∧
      (process_story_segment revisionDiscardBackend false).text = "GEN2" ∧
      revisionDiscardBackend.revise 1 "GEN1" (evalAt revisionDiscardBackend 1)
        = "REVISED-GEN1" ∧
      (process_story_segment revisionDiscardBackend false).text ≠ "REVISED-GEN1" := by
  refine ⟨rfl, rfl, rfl, rfl, rfl, rfl, ?_⟩
  decide

/-- C3 (code bug): when every attempt is rejected the judge does run exactly
`max_retry_attempts = 3` times, but the generator runs 3 times and the
reviser 2 times, so generator and reviser together are invoked 5 times —
exceeding the claimed combined bound of 3.  (Same root cause as
`revision_discarded_on_retry`: the loop generates afresh every iteration
and additionally revises on each non-final rejection.) -/
theorem generator_reviser_budget_exceeded :
    (process_story_segment alwaysRejectBackend false).judge_calls = 3 ∧
      (process_story_segment alwaysRejectBackend false).gen_calls = 3 ∧
      (process_story_segment alwaysRejectBackend false).revise_calls = 2 ∧
      (process_story_segment alwaysRejectBackend false).gen_calls
          + (process_story_segment alwaysRejectBackend false).revise_calls = 5 ∧
      ¬ ((process_story_segment alwaysRejectBackend false).gen_calls
          + (process_story_segment alwaysRejectBackend false).revise_calls
            ≤ max_retry_attempts) :=
  ⟨rfl, rfl, rfl, rfl, by decide⟩

/-- C4: if every attempt's evaluation fails the gate, the run returns the
fixed fallback text selected only by the ending flag, with
`accepted = false`; the ending fallback is distinct from the one shared by
all non-ending modes. -/
theorem fallback_on_exhaustion (B : Backend) (is_ending : Bool)
    (h : ∀ k, k < max_retry_attempts → ¬ acceptGate (evalAt B k)) :
    (process_story_segment B is_ending).text = _get_fallback_story is_ending ∧
      (process_story_segment B is_ending).accepted = false ∧
      _get_fallback_story true ≠ _get_fallback_story false := by
  rw [run_reject B is_ending (h 0 (by decide)) (h 1 (by decide)) (h 2 (by decide))]
  exact ⟨rfl, rfl, by decide⟩

/-- Witness for `fallback_on_exhaustion` at a concrete always-rejecting
backend, in ending mode. -/
theorem fallback_on_exhaustion_witness :
    (process_story_segment lowQualityBackend true).text = _get_fallback_story true ∧
      (process_story_segment lowQualityBackend true).accepted = false ∧
      _get_fallback_story true ≠ _get_fallback_story false :=
  fallback_on_exhaustion lowQualityBackend true (by decide)

/-! ### Claims about evaluation parsing -/

/-- C5 counterexample: a response whose brace span is valid JSON but whose
`quality_score` is `null` makes `int(None)` raise `TypeError`, which the
`except (json.JSONDecodeError, ValueError, KeyError)` clause does not
catch: the failure propagates as an error instead of producing the
conservative fallback evaluation. -/
theorem parse_evaluation_typeerror_propagates :
    _parse_json_evaluation "\x7b\"quality_score\": null\x7d" = Except.error PyErr.typeError ∧
      _parse_json_evaluation "\x7b\"quality_score\": null\x7d"
        ≠ Except.ok fallbackEvaluation :=
  ⟨rfl, fun h => Except.noConfusion h⟩

/-- C5 (amended): on an input with no brace span, an undecodable span, or a
`ValueError`-class coercion failure (a string field value that fails numeric
conversion), `_parse_json_evaluation` returns exactly the fixed conservative
fallback evaluation — it neither raises nor passes; a `TypeError`-class
coercion failure (`null`, list or object field value), however, propagates
(see `parse_evaluation_typeerror_propagates`). -/
theorem parse_evaluation_fallback_on_failure (s : String)
    (h : extract_json_span s = none ∨
        (∃ js, extract_json_span s = some js ∧ json_loads js = none) ∨
        (∃ js d, extract_json_span s = some js ∧ json_loads js = some (Json.obj d) ∧
          build_evaluation d = Except.error PyErr.valueError)) :
    _parse_json_evaluation s = Except.ok fallbackEvaluation := by
  unfold _parse_json_evaluation
  rcases h with h | ⟨js, h1, h2⟩ | ⟨js, d, h1, h2, h3⟩
  · rw [h]
  · rw [h1]
    dsimp only
    rw [h2]
  · rw [h1]
    dsimp only
    rw [h2]
    dsimp only
    rw [h3]

/-- Witness for `parse_evaluation_fallback_on_failure`, exercising the
`ValueError` coercion branch with `quality_score` bound to a non-numeric
string. -/
theorem parse_evaluation_fallback_on_failure_witness :
    _parse_json_evaluation "\x7b\"quality_score\": \"great\"\x7d"
      = Except.ok fallbackEvaluation :=
  parse_evaluation_fallback_on_failure "\x7b\"quality_score\": \"great\"\x7d"
    (Or.inr (Or.inr ⟨"\x7b\"quality_score\": \"great\"\x7d",
      [("quality_score", Json.str "great")], rfl, rfl, rfl⟩))

/-- C6 counterexample: a response whose span parses as a JSON object with
verdict exactly "SAFE" can still come back with `is_safe = false`: when the
`quality_score` field is a non-numeric string, `int(...)` raises
`ValueError` and the whole evaluation is replaced by the fallback, whose
`is_safe` is false. -/
theorem verdict_safe_but_fallback :
    extract_json_span "\x7b\"verdict\": \"SAFE\", \"quality_score\": \"great\"\x7d"
        = some "\x7b\"verdict\": \"SAFE\", \"quality_score\": \"great\"\x7d" ∧
      json_loads "\x7b\"verdict\": \"SAFE\", \"quality_score\": \"great\"\x7d"
        = some (Json.obj [("verdict", Json.str "SAFE"), ("quality_score", Json.str "great")]) ∧
      dictGet [("verdict", Json.str "SAFE"), ("quality_score", Json.str "great")] "verdict"
          (Json.str "UNSAFE") = Json.str "SAFE" ∧
      _parse_json_evaluation "\x7b\"verdict\": \"SAFE\", \"quality_score\": \"great\"\x7d"
        = Except.ok fallbackEvaluation ∧
      fallbackEvaluation.is_safe = false :=
  ⟨rfl, rfl, rfl, rfl, rfl⟩

/-- C6 (amended): for every response whose brace span parses as a JSON
object and whose `quality_score`/`confidence` coercions succeed, the parsed
evaluation is returned with `is_safe` true exactly when the verdict field
equals the string "SAFE" (any other or missing verdict gives false),
`quality_score` the integer coercion of its field, `confidence` the float
coercion of its field, and missing fields defaulting to 1 and 1.0 (the
last two conjuncts evaluate the defaults `data.get` supplies). -/
theorem parse_evaluation_success_fields (s js : String) (data : List (String × Json))
    (ev : JudgeEvaluation)
    (h1 : extract_json_span s = some js)
    (h2 : json_loads js = some (Json.obj data))
    (h3 : build_evaluation data = Except.ok ev) :
    _parse_json_evaluation s = Except.ok ev ∧
      (ev.is_safe = true ↔ dictGet data "verdict" (Json.str "UNSAFE") = Json.str "SAFE") ∧
      pyInt (dictGet data "quality_score" (Json.num 1)) = Except.ok ev.quality_score ∧
      pyFloat (dictGet data "confidence" (Json.num 1)) = Except.ok ev.confidence ∧
      pyInt (Json.num 1) = Except.ok 1 ∧
      pyFloat (Json.num 1) = Except.ok 1 := by
  have hmain : _parse_json_evaluation s = Except.ok ev := by
    unfold _parse_json_evaluation
    rw [h1]
    dsimp only
    rw [h2]
    dsimp only
    rw [h3]
  unfold build_evaluation at h3
  rcases hq : pyInt (dictGet data "quality_score" (Json.num 1)) with e | qs <;> rw [hq] at h3
  · injection h3
  · rcases hc : pyFloat (dictGet data "confidence" (Json.num 1)) with e | conf <;>
      rw [hc] at h3
    · injection h3
    · injection h3 with h3'
      subst h3'
      exact ⟨hmain, pyEqStr_iff _ _, rfl, rfl, rfl, rfl⟩

/-- Witness for `parse_evaluation_success_fields` on a response with only a
verdict field, exercising both declared defaults. -/
theorem parse_evaluation_success_fields_witness :
    _parse_json_evaluation "\x7b\"verdict\": \"SAFE\"\x7d"
        = Except.ok ⟨true, 1, Json.arr [], Json.arr [], 1⟩ ∧
      ((⟨true, 1, Json.arr [], Json.arr [], 1⟩ : JudgeEvaluation).is_safe = true ↔
        dictGet [("verdict", Json.str "SAFE")] "verdict" (Json.str "UNSAFE")
          = Json.str "SAFE") ∧
      pyInt (dictGet [("verdict", Json.str "SAFE")] "quality_score" (Json.num 1))
        = Except.ok (⟨true, 1, Json.arr [], Json.arr [], 1⟩ : JudgeEvaluation).quality_score ∧
      pyFloat (dictGet [("verdict", Json.str "SAFE")] "confidence" (Json.num 1))
        = Except.ok (⟨true, 1, Json.arr [], Json.arr [], 1⟩ : JudgeEvaluation).confidence ∧
      pyInt (Json.num 1) = Except.ok 1 ∧
      pyFloat (Json.num 1) = Except.ok 1 :=
  parse_evaluation_success_fields "\x7b\"verdict\": \"SAFE\"\x7d" "\x7b\"verdict\": \"SAFE\"\x7d"
    [("verdict", Json.str "SAFE")] ⟨true, 1, Json.arr [], Json.arr [], 1⟩ rfl rfl rfl

/-! ### Claims about narrative-state integration -/

lemma extract_story_metadata_preserves (resp : String) (st st2 : StoryState)
    (h : _extract_story_metadata resp st = Except.ok st2) :
    st2.full_story = st.full_story ∧ st2.current_segment = st.current_segment ∧
      st2.segment_count = st.segment_count ∧ st2.user_choices = st.user_choices := by
  unfold _extract_story_metadata at h
  rcases hs : extract_json_span resp with _ | js <;> rw [hs] at h
  · injection h with h'
    subst h'
    exact ⟨rfl, rfl, rfl, rfl⟩
  · dsimp only at h
    rcases hl : json_loads js with _ | v <;> rw [hl] at h
    · injection h with h'
      subst h'
      exact ⟨rfl, rfl, rfl, rfl⟩
    · cases v <;> dsimp only at h
      case obj d =>
        injection h with h'
        subst h'
        exact ⟨rfl, rfl, rfl, rfl⟩
      all_goals injection h

lemma update_story_state_eq (resp : String) (st : StoryState) (seg : String) :
    update_story_state resp st seg =
      if st.segment_count + 1 = 1 then
        (_extract_story_metadata resp (appended_state st seg)).map (fun st2 => (st2, true))
      else Except.ok (appended_state st seg, false) := rfl

/-- C7: `update_story_state` sets the transcript to the old transcript, a
separating blank line and the new segment exactly when the old transcript
was non-empty (and to the segment alone otherwise), increments
`segment_count` by exactly 1, and invokes `_extract_story_metadata` if and
only if the resulting count is exactly 1 — so for any prior count ≥ 1 the
metadata fields pass through untouched and extraction never runs again. -/
theorem update_story_state_spec (metadata_response : String) (st : StoryState)
    (new_segment : String) :
    ∃ result : StoryState × Bool,
      update_story_state metadata_response st new_segment = Except.ok result ∧
        result.1.full_story =
          (if st.full_story ≠ "" then st.full_story ++ "\n\n" ++ new_segment
            else new_segment) ∧
        result.1.segment_count = st.segment_count + 1 ∧
        result.1.current_segment = new_segment ∧
        (result.2 = true ↔ st.segment_count + 1 = 1) ∧
        (st.segment_count + 1 ≠ 1 →
          result.1.characters = st.characters ∧ result.1.setting = st.setting ∧
            result.1.theme = st.theme) := by
  rw [update_story_state_eq]
  by_cases h0 : st.segment_count + 1 = 1
  · rw [if_pos h0]
    obtain ⟨st2, hst2⟩ :=
      extract_story_metadata_total metadata_response (appended_state st new_segment)
    rw [hst2]
    obtain ⟨hf, hcs, hsc, -⟩ := extract_story_metadata_preserves _ _ _ hst2
    refine ⟨(st2, true), rfl, ?_, ?_, ?_, iff_of_true rfl h0, fun hne => absurd h0 hne⟩
    · exact hf
    · exact hsc
    · exact hcs
  · rw [if_neg h0]
    exact ⟨(appended_state st new_segment, false), rfl, rfl, rfl, rfl,
      iff_of_false (by simp) h0, fun _ => ⟨rfl, rfl, rfl⟩⟩

/-- C8: when the metadata response has no brace span or its span fails to
decode, the state receives exactly the declared fallback metadata and no
error is raised. -/
theorem metadata_fallback_on_parse_failure (resp : String) (st : StoryState)
    (h : extract_json_span resp = none ∨
        (∃ js, extract_json_span resp = some js ∧ json_loads js = none)) :
    _extract_story_metadata resp st =
      Except.ok
        { st with
          characters := Json.arr [Json.str "Main character"]
          setting := Json.str "A friendly place"
          theme := Json.str "Adventure" } := by
  unfold _extract_story_metadata
  rcases h with h | ⟨js, h1, h2⟩
  · rw [h]
  · rw [h1]
    dsimp only
    rw [h2]

/-- Witness for `metadata_fallback_on_parse_failure` on a braceless
response. -/
theorem metadata_fallback_on_parse_failure_witness :
    _extract_story_metadata "I could not find the characters." {} =
      Except.ok
        { ({} : StoryState) with
          characters := Json.arr [Json.str "Main character"]
          setting := Json.str "A friendly place"
          theme := Json.str "Adventure" } :=
  metadata_fallback_on_parse_failure "I could not find the characters." {} (Or.inl rfl)

/-- C9: the four whole-story rewrite operations each return the stripped
backend response unconditionally — their inputs include no evaluation, so
no judge verdict can gate them — and applying the rewrite (as the
interactive loop does for menu choices 4-7) overwrites the transcript
wholesale while leaving `segment_count` and every other state field
unchanged. -/
theorem rewrite_operations_bypass_judge (st : StoryState) (request resp : String) :
    request_story_changes st request resp = pyStrip resp ∧
      change_story_tone st request resp = pyStrip resp ∧
      add_new_character st request resp = pyStrip resp ∧
      change_story_setting st request resp = pyStrip resp ∧
      (apply_story_rewrite st (request_story_changes st request resp)).full_story
        = pyStrip resp ∧
      (apply_story_rewrite st (request_story_changes st request resp)).segment_count
        = st.segment_count ∧
      (apply_story_rewrite st (request_story_changes st request resp)).characters
        = st.characters ∧
      (apply_story_rewrite st (request_story_changes st request resp)).setting = st.setting ∧
      (apply_story_rewrite st (request_story_changes st request resp)).theme = st.theme ∧
      (apply_story_rewrite st (request_story_changes st request resp)).current_segment
        = st.current_segment :=
  ⟨rfl, rfl, rfl, rfl, rfl, rfl, rfl, rfl, rfl, rfl⟩

/-- C10: a decodable metadata object that omits the `characters`, `setting`
and `theme` fields installs the `data.get` defaults — the empty character
list, "Unknown setting" and "Adventure" — not the parse-failure fallback
values. -/
theorem metadata_defaults_on_missing_fields (resp js : String)
    (data : List (String × Json)) (st : StoryState)
    (h1 : extract_json_span resp = some js)
    (h2 : json_loads js = some (Json.obj data))
    (hc : ∀ p ∈ data, p.1 ≠ "characters")
    (hs : ∀ p ∈ data, p.1 ≠ "setting")
    (ht : ∀ p ∈ data, p.1 ≠ "theme") :
    _extract_story_metadata resp st =
      Except.ok
        { st with
          characters := Json.arr []
          setting := Json.str "Unknown setting"
          theme := Json.str "Adventure" } := by
  unfold _extract_story_metadata
  rw [h1]
  dsimp only
  rw [h2]
  dsimp only
  rw [dictGet_of_not_mem data "characters" _ hc, dictGet_of_not_mem data "setting" _ hs,
    dictGet_of_not_mem data "theme" _ ht]

/-- Witness for `metadata_defaults_on_missing_fields` on the empty JSON
object. -/
theorem metadata_defaults_on_missing_fields_witness :
    _extract_story_metadata "\x7b\x7d" {} =
      Except.ok
        { ({} : StoryState) with
          characters := Json.arr []
          setting := Json.str "Unknown setting"
          theme := Json.str "Adventure" } :=
  metadata_defaults_on_missing_fields "\x7b\x7d" "\x7b\x7d" [] {} rfl rfl
    (by simp) (by simp) (by simp)

/-- Witness for `update_story_state_spec` at a braceless metadata response,
the empty initial state and a concrete first segment. -/
theorem update_story_state_spec_witness :
    ∃ result : StoryState × Bool,
      update_story_state "no structured payload" {} "Benny visited Lily." = Except.ok result ∧
        result.1.full_story =
          (if ({} : StoryState).full_story ≠ "" then
            ({} : StoryState).full_story ++ "\n\n" ++ "Benny visited Lily."
            else "Benny visited Lily.") ∧
        result.1.segment_count = ({} : StoryState).segment_count + 1 ∧
        result.1.current_segment = "Benny visited Lily." ∧
        (result.2 = true ↔ ({} : StoryState).segment_count + 1 = 1) ∧
        (({} : StoryState).segment_count + 1 ≠ 1 →
          result.1.characters = ({} : StoryState).characters ∧
            result.1.setting = ({} : StoryState).setting ∧
            result.1.theme = ({} : StoryState).theme) :=
  update_story_state_spec "no structured payload" {} "Benny visited Lily."
